import Mathlib

/-!
Verification of the quarterly risk assessor of this repository
(src/app/app/risk_logic.py, src/app/app/schema.py, src/app/app/main.py).

The assessor builds a pandas DataFrame from three parallel lists, fits a
statsmodels ARIMA(1,1,1) model to each numeric series, forecasts two
steps, computes the sample standard deviation of each series'
period-over-period percentage changes, combines them with weights
0.6/0.4 into a risk score, compares the unrounded score with 0.25 for a
flag, and returns the score rounded to 3 decimals.

Modelling choices:
  - floats are modelled as exact reals; list data entering the core is
    rational, so every hypothesis about it is decidable;
  - a NaN float result is modelled as `none : Option ℝ`;
  - the third-party ARIMA maximum-likelihood fit is not repository code
    and is abstracted by a `fit` parameter whose only used interface is
    `forecast(steps = k)`, returning exactly k values (the library
    contract); `fit = none` models a raised fitting exception;
  - quarter-label parsing (pandas PeriodIndex) is likewise abstracted by
    a boolean predicate on labels.
-/

namespace QuarterlyRisk

/-- Request payload (schema.py lines 4-7, class QuarterlyRiskInput): three
parallel lists. Numeric entries reaching the core computation are modelled
as rationals; the non-finite floats that the schema also admits are treated
separately below (`PyFloat`). -/
structure QuarterlyRiskInput where
  quarters : List String
  penalty_per_year : List ℚ
  percent_returns_late : List ℚ

/-- One entry of a pandas pct_change result: a float that may be NaN or
infinite. A single constructor covers both infinities, since each poisons a
downstream standard deviation the same way. -/
inductive PEntry where
  | nan : PEntry
  | inf : PEntry
  | fin : ℚ → PEntry
deriving DecidableEq

/-- pandas Series.pct_change() (risk_logic.py lines 18-19): entry i is
(x[i] - x[i-1]) / x[i-1]; the first entry is NaN; a zero prior yields an
infinity, or NaN when the numerator is also zero. -/
def pctEntries (xs : List ℚ) : List PEntry :=
  PEntry.nan :: List.zipWith
    (fun a b => if a = 0 then (if b = 0 then PEntry.nan else PEntry.inf)
                else PEntry.fin ((b - a) / a)) xs xs.tail

/-- The finite entries of a pct_change result, in order. -/
def finsOf (es : List PEntry) : List ℚ :=
  es.filterMap (fun e => match e with | PEntry.fin q => some q | _ => none)

/-- Whether a pct_change result contains an infinite entry. -/
def hasInf (es : List PEntry) : Bool :=
  es.any (fun e => match e with | PEntry.inf => true | _ => false)

/-- Arithmetic mean of a list of rationals (0 for the empty list; callers
guard the degenerate lengths). -/
def mean (ys : List ℚ) : ℚ := ys.sum / ys.length

/-- Sample variance with ddof = 1, the default of pandas Series.std(). -/
def sampleVar (ys : List ℚ) : ℚ :=
  ((ys.map (fun y => (y - mean ys) ^ 2)).sum) / ((ys.length : ℚ) - 1)

/-- pandas Series.std() applied to a pct_change result (risk_logic.py
lines 18-19): NaN entries are skipped (skipna default), an infinite entry
makes the result NaN, and fewer than 2 usable entries make the ddof = 1
result NaN. `none` models a NaN float. -/
noncomputable def stdOpt (xs : List ℚ) : Option ℝ :=
  if hasInf (pctEntries xs) then none
  else if (finsOf (pctEntries xs)).length < 2 then none
  else some (Real.sqrt ((sampleVar (finsOf (pctEntries xs)) : ℚ) : ℝ))

/-- Composite score before rounding (risk_logic.py line 21):
volatility_penalty * 0.6 + volatility_late * 0.4, with NaN (`none`)
propagating through the float arithmetic. -/
noncomputable def riskScoreFull (p l : List ℚ) : Option ℝ :=
  match stdOpt p, stdOpt l with
  | some a, some b => some (0.6 * a + 0.4 * b)
  | _, _ => none

/-- Python comparison risk_score > 0.25 (risk_logic.py line 22), which is
False when risk_score is NaN. -/
def flagOf (s : Option ℝ) : Prop :=
  match s with
  | some x => x > 0.25
  | none => False

/-- Python round(x, 3) (risk_logic.py line 27) over the real model.
Tie-breaking (Python rounds ties to even) is irrelevant below: no statement
in this file sits on a tie. -/
noncomputable def round3 (x : ℝ) : ℝ := (round (1000 * x) : ℤ) / 1000

/-- Abstraction of a fitted statsmodels ARIMA model (third-party library,
not repository code): the only interface the assessor uses is
forecast(steps = k), which by the library contract returns exactly k
values. -/
structure FittedModel where
  forecast : ℕ → List ℝ
  forecast_len : ∀ k, (forecast k).length = k

/-- Response dictionary (risk_logic.py lines 24-29). A `risk_score` of
`none` models a NaN float in the response. -/
@[ext] structure RiskReport where
  penalty_forecast_next_2_quarters : List ℝ
  late_pct_forecast_next_2_quarters : List ℝ
  risk_score : Option ℝ
  risk_flag : Prop

/-- The assessor (risk_logic.py lines 5-29, assess_quarterly_risk),
parameterised by the quarter-label parser (pandas PeriodIndex) and the
ARIMA fitting routine (statsmodels), neither of which is repository code.
`none` models a raised exception: an unparseable label (pandas
DateParseError, line 7), unequal column lengths (the pandas ValueError of
the DataFrame constructor, lines 6-10) or a fitting failure (lines 12, 15).
The source defines no exception type of its own — no ValidationError,
FittingError or DegenerateVolatilityError exists in the repository — and
catches nothing. -/
noncomputable def assess_quarterly_risk (parseOk : String → Bool)
    (fit : List ℚ → Option FittedModel) (d : QuarterlyRiskInput) :
    Option RiskReport :=
  if d.quarters.all parseOk then
    if d.quarters.length = d.penalty_per_year.length then
      if d.quarters.length = d.percent_returns_late.length then
        match fit d.penalty_per_year with
        | none => none
        | some penalty_model =>
          match fit d.percent_returns_late with
          | none => none
          | some late_model =>
            some { penalty_forecast_next_2_quarters := penalty_model.forecast 2
                   late_pct_forecast_next_2_quarters := late_model.forecast 2
                   risk_score :=
                     (riskScoreFull d.penalty_per_year d.percent_returns_late).map round3
                   risk_flag :=
                     flagOf (riskScoreFull d.penalty_per_year d.percent_returns_late) }
      else none
    else none
  else none

/-- State-explicit rendering of one call: the source only reads
data.quarters, data.penalty_per_year and data.percent_returns_late
(risk_logic.py lines 7-9) into a freshly constructed DataFrame and never
assigns to the input record, so the record after the call is the record
that was passed in, returned here alongside the result. -/
noncomputable def assess_call (parseOk : String → Bool)
    (fit : List ℚ → Option FittedModel) (d : QuarterlyRiskInput) :
    QuarterlyRiskInput × Option RiskReport :=
  (d, assess_quarterly_risk parseOk fit d)

/-- Follows the spec's words (§4 step 4): the period-over-period percentage
changes of a series, each the ratio of a consecutive difference to the
prior value. -/
def specChanges (xs : List ℚ) : List ℚ :=
  List.zipWith (fun a b => (b - a) / a) xs xs.tail

/-- Follows the spec's words (§4 step 4, glossary): volatility is the
sample standard deviation of the percentage-change series. -/
noncomputable def spec_volatility (xs : List ℚ) : ℝ :=
  Real.sqrt ((sampleVar (specChanges xs) : ℚ) : ℝ)

/-- Every value that serves as a percentage-change denominator (each entry
but the last) is nonzero; on this domain the spec's ratio of consecutive
difference to prior value is mathematically defined. -/
def noZeroPrior (xs : List ℚ) : Prop := ∀ a ∈ xs.dropLast, a ≠ 0

/-- A Python float as it appears in a parsed JSON body: finite, infinite
or NaN. FastAPI's JSON parsing accepts the literals NaN, Infinity and
-Infinity. -/
inductive PyFloat where
  | fin : ℚ → PyFloat
  | inf : PyFloat
  | neginf : PyFloat
  | nan : PyFloat
deriving DecidableEq

/-- Raw JSON body of the POST endpoint (main.py line 8). -/
structure RawPayload where
  quarters : List String
  penalty_per_year : List PyFloat
  percent_returns_late : List PyFloat

/-- pydantic validation of QuarterlyRiskInput (schema.py lines 4-7): each
field must be a list of the annotated scalar type. For List[float],
pydantic's default float validation (allow_inf_nan = True) accepts every
IEEE float, NaN and the infinities included; the model declares no
validator of its own, so validation of a well-typed payload always
succeeds and non-finite values pass through to the assessor. -/
def validatePayload (raw : RawPayload) : Option RawPayload := some raw

/-! Helper lemmas: evaluating the embedded definitions. -/

lemma sqrt_ratCast (q : ℚ) (r : ℝ) (h0 : 0 ≤ r) (h : (q : ℝ) = r ^ 2) :
    Real.sqrt (q : ℝ) = r := by
  rw [h]
  exact Real.sqrt_sq h0

lemma stdOpt_eval (xs : List ℚ) (es : List PEntry) (fins : List ℚ) (v : ℚ) (s : ℝ)
    (he : pctEntries xs = es) (hinf : hasInf es = false) (hfins : finsOf es = fins)
    (hlen : 2 ≤ fins.length) (hv : sampleVar fins = v) (h0 : 0 ≤ s)
    (hs : (v : ℝ) = s ^ 2) : stdOpt xs = some s := by
  rw [stdOpt, he, hinf, hfins, hv]
  simp only [Bool.false_eq_true, if_false]
  rw [if_neg (by omega), sqrt_ratCast v s h0 hs]

lemma stdOpt_none_short (xs : List ℚ) (es : List PEntry)
    (he : pctEntries xs = es) (hinf : hasInf es = false)
    (hlen : (finsOf es).length < 2) : stdOpt xs = none := by
  rw [stdOpt, he, hinf]
  simp only [Bool.false_eq_true, if_false]
  rw [if_pos hlen]

lemma riskScoreFull_eval (p l : List ℚ) (a b : ℝ)
    (hp : stdOpt p = some a) (hl : stdOpt l = some b) :
    riskScoreFull p l = some (0.6 * a + 0.4 * b) := by
  rw [riskScoreFull, hp, hl]

lemma riskScoreFull_none_left (p l : List ℚ) (hp : stdOpt p = none) :
    riskScoreFull p l = none := by
  rw [riskScoreFull, hp]

lemma riskScoreFull_some (p l : List ℚ) (t : ℝ) (h : riskScoreFull p l = some t) :
    ∃ a b, stdOpt p = some a ∧ stdOpt l = some b ∧ t = 0.6 * a + 0.4 * b := by
  rw [riskScoreFull] at h
  cases hp : stdOpt p with
  | none => rw [hp] at h; cases h
  | some a =>
    cases hl : stdOpt l with
    | none => rw [hp, hl] at h; cases h
    | some b =>
      rw [hp, hl] at h
      exact ⟨a, b, rfl, rfl, (Option.some.injEq _ _ ▸ h).symm⟩

lemma zipWith_changes (xs : List ℚ) (h : ∀ a ∈ xs.dropLast, a ≠ 0) :
    List.zipWith
      (fun a b => if a = 0 then (if b = 0 then PEntry.nan else PEntry.inf)
                  else PEntry.fin ((b - a) / a)) xs xs.tail
      = (List.zipWith (fun a b => (b - a) / a) xs xs.tail).map PEntry.fin := by
  induction xs with
  | nil => rfl
  | cons a t ih =>
    cases t with
    | nil => rfl
    | cons b t2 =>
      have ha : a ≠ 0 := h a (by rw [List.dropLast_cons₂]; exact List.mem_cons_self a _)
      have ht : ∀ x ∈ (b :: t2).dropLast, x ≠ 0 := by
        intro x hx
        exact h x (by rw [List.dropLast_cons₂]; exact List.mem_cons_of_mem a hx)
      simp only [List.tail_cons] at ih ⊢
      rw [List.zipWith_cons_cons, List.zipWith_cons_cons, List.map_cons, if_neg ha,
        ih ht]

lemma pctEntries_of_noZeroPrior (xs : List ℚ) (h : noZeroPrior xs) :
    pctEntries xs = PEntry.nan :: (specChanges xs).map PEntry.fin := by
  rw [pctEntries, specChanges, zipWith_changes xs h]

lemma hasInf_of_noZeroPrior (xs : List ℚ) (h : noZeroPrior xs) :
    hasInf (pctEntries xs) = false := by
  rw [pctEntries_of_noZeroPrior xs h, hasInf]
  simp [List.any_map, Function.comp]

lemma finsOf_of_noZeroPrior (xs : List ℚ) (h : noZeroPrior xs) :
    finsOf (pctEntries xs) = specChanges xs := by
  rw [pctEntries_of_noZeroPrior xs h, finsOf, List.filterMap_cons, List.filterMap_map]
  simp only [Function.comp]
  exact List.filterMap_some _

lemma stdOpt_some_spec (xs : List ℚ) (a : ℝ) (h : noZeroPrior xs)
    (ha : stdOpt xs = some a) : a = spec_volatility xs := by
  rw [stdOpt, hasInf_of_noZeroPrior xs h, finsOf_of_noZeroPrior xs h] at ha
  simp only [Bool.false_eq_true, if_false] at ha
  split_ifs at ha with hc
  rw [spec_volatility]
  injection ha with ha2
  exact ha2.symm

lemma round3_mono (x y : ℝ) (h : x ≤ y) : round3 x ≤ round3 y := by
  rw [round3, round3]
  have hf : round (1000 * x) ≤ round (1000 * y) := by
    rw [round_eq, round_eq]
    exact Int.floor_mono (by linarith)
  have hc : ((round (1000 * x) : ℤ) : ℝ) ≤ ((round (1000 * y) : ℤ) : ℝ) :=
    Int.cast_le.mpr hf
  linarith

lemma round3_nonneg (x : ℝ) (h : 0 ≤ x) : 0 ≤ round3 x := by
  rw [round3]
  have hf : (0 : ℤ) ≤ round (1000 * x) := by
    rw [round_eq]
    exact Int.le_floor.mpr (by push_cast; linarith)
  have hc : (0 : ℝ) ≤ ((round (1000 * x) : ℤ) : ℝ) := by exact_mod_cast hf
  linarith

lemma assess_pos (parseOk : String → Bool) (fit : List ℚ → Option FittedModel)
    (d : QuarterlyRiskInput) (pm lm : FittedModel)
    (hq : d.quarters.all parseOk = true)
    (hp : d.quarters.length = d.penalty_per_year.length)
    (hl : d.quarters.length = d.percent_returns_late.length)
    (hfp : fit d.penalty_per_year = some pm)
    (hfl : fit d.percent_returns_late = some lm) :
    assess_quarterly_risk parseOk fit d =
      some { penalty_forecast_next_2_quarters := pm.forecast 2
             late_pct_forecast_next_2_quarters := lm.forecast 2
             risk_score :=
               (riskScoreFull d.penalty_per_year d.percent_returns_late).map round3
             risk_flag :=
               flagOf (riskScoreFull d.penalty_per_year d.percent_returns_late) } := by
  rw [assess_quarterly_risk, if_pos hq, if_pos hp, if_pos hl, hfp, hfl]

lemma assess_inv (parseOk : String → Bool) (fit : List ℚ → Option FittedModel)
    (d : QuarterlyRiskInput) (r : RiskReport)
    (h : assess_quarterly_risk parseOk fit d = some r) :
    ∃ pm lm, fit d.penalty_per_year = some pm ∧
      fit d.percent_returns_late = some lm ∧
      r = { penalty_forecast_next_2_quarters := pm.forecast 2
            late_pct_forecast_next_2_quarters := lm.forecast 2
            risk_score :=
              (riskScoreFull d.penalty_per_year d.percent_returns_late).map round3
            risk_flag :=
              flagOf (riskScoreFull d.penalty_per_year d.percent_returns_late) } := by
  rw [assess_quarterly_risk] at h
  split_ifs at h
  cases hfp : fit d.penalty_per_year with
  | none => rw [hfp] at h; cases h
  | some pm =>
    cases hfl : fit d.percent_returns_late with
    | none => rw [hfp, hfl] at h; cases h
    | some lm =>
      rw [hfp, hfl] at h
      exact ⟨pm, lm, rfl, rfl, (Option.some.injEq _ _ ▸ h).symm⟩

/-! Concrete data used by witnesses and counterexamples. The numeric series
are engineered so that their percentage changes form arithmetic
progressions m - s, m, m + s, whose sample standard deviation is exactly
the rational s. -/

def qs4 : List String := [ "2023-Q1", "2023-Q2", "2023-Q3", "2023-Q4" ]

def qs2 : List String := [ "2023-Q1", "2023-Q2" ]

/-- Percentage changes 0, 1/4, 1/2: volatility exactly 1/4. -/
def seriesP : List ℚ := [1, 1, 5/4, 15/8]

/-- Percentage changes 0, 501/2000, 501/1000: volatility exactly 0.2505. -/
def seriesL : List ℚ := [1, 1, 2501/2000, 3754001/2000000]

/-- Percentage changes 0, 2501/10000, 2501/5000: volatility exactly 0.2501. -/
def seriesP2 : List ℚ := [1, 1, 12501/10000, 93770001/50000000]

/-- Constant series: percentage changes 0, 0, 0, volatility exactly 0. -/
def seriesC : List ℚ := [1, 1, 1, 1]

def parseAny : String → Bool := fun _ => true

/-- A forecast oracle standing in for a successful ARIMA fit in concrete
evaluations; the risk score and flag do not depend on it. -/
def mdl0 : FittedModel :=
  { forecast := fun k => List.replicate k 0
    forecast_len := fun k => by simp }

def fitConst : List ℚ → Option FittedModel := fun _ => some mdl0

lemma pctEntries_seriesP :
    pctEntries seriesP =
      [PEntry.nan, PEntry.fin 0, PEntry.fin (1/4), PEntry.fin (1/2)] := by
  simp only [pctEntries, seriesP, List.tail, List.zipWith]
  norm_num

lemma stdOpt_seriesP : stdOpt seriesP = some ((1 : ℝ)/4) := by
  refine stdOpt_eval seriesP _ [0, 1/4, 1/2] (1/16) _ pctEntries_seriesP rfl rfl
    (by simp) ?_ (by norm_num) (by norm_num)
  simp only [sampleVar, mean, List.map, List.sum_cons, List.sum_nil, List.length]
  norm_num

lemma pctEntries_seriesL :
    pctEntries seriesL =
      [PEntry.nan, PEntry.fin 0, PEntry.fin (501/2000), PEntry.fin (501/1000)] := by
  simp only [pctEntries, seriesL, List.tail, List.zipWith]
  norm_num

lemma stdOpt_seriesL : stdOpt seriesL = some ((501 : ℝ)/2000) := by
  refine stdOpt_eval seriesL _ [0, 501/2000, 501/1000] (251001/4000000) _
    pctEntries_seriesL rfl rfl (by simp) ?_ (by norm_num) (by norm_num)
  simp only [sampleVar, mean, List.map, List.sum_cons, List.sum_nil, List.length]
  norm_num

lemma pctEntries_seriesP2 :
    pctEntries seriesP2 =
      [PEntry.nan, PEntry.fin 0, PEntry.fin (2501/10000), PEntry.fin (2501/5000)] := by
  simp only [pctEntries, seriesP2, List.tail, List.zipWith]
  norm_num

lemma stdOpt_seriesP2 : stdOpt seriesP2 = some ((2501 : ℝ)/10000) := by
  refine stdOpt_eval seriesP2 _ [0, 2501/10000, 2501/5000] (6255001/100000000) _
    pctEntries_seriesP2 rfl rfl (by simp) ?_ (by norm_num) (by norm_num)
  simp only [sampleVar, mean, List.map, List.sum_cons, List.sum_nil, List.length]
  norm_num

lemma pctEntries_seriesC :
    pctEntries seriesC =
      [PEntry.nan, PEntry.fin 0, PEntry.fin 0, PEntry.fin 0] := by
  simp only [pctEntries, seriesC, List.tail, List.zipWith]
  norm_num

lemma stdOpt_seriesC : stdOpt seriesC = some (0 : ℝ) := by
  refine stdOpt_eval seriesC _ [0, 0, 0] 0 _ pctEntries_seriesC rfl rfl
    (by simp) ?_ (by norm_num) (by norm_num)
  simp only [sampleVar, mean, List.map, List.sum_cons, List.sum_nil, List.length]
  norm_num

lemma stdOpt_shortP : stdOpt [100, 110] = none := by
  refine stdOpt_none_short _ [PEntry.nan, PEntry.fin (1/10)] ?_ rfl (by simp [finsOf])
  simp only [pctEntries, List.tail, List.zipWith]
  norm_num

def inMain : QuarterlyRiskInput :=
  { quarters := qs4, penalty_per_year := seriesP, percent_returns_late := seriesL }

def inSens1 : QuarterlyRiskInput :=
  { quarters := qs4, penalty_per_year := seriesP, percent_returns_late := seriesC }

def inSens2 : QuarterlyRiskInput :=
  { quarters := qs4, penalty_per_year := seriesP2, percent_returns_late := seriesC }

/-- The concrete N = 2 case named by the spec (§8). -/
def inShort : QuarterlyRiskInput :=
  { quarters := qs2, penalty_per_year := [100, 110],
    percent_returns_late := [2, 21/10] }

/-- Four quarters against three penalties (§8's mismatched-lengths case). -/
def inMismatch : QuarterlyRiskInput :=
  { quarters := qs4, penalty_per_year := [1000, 1200, 900],
    percent_returns_late := [5, 31/5, 24/5, 71/10] }

lemma inMain_p : inMain.penalty_per_year = seriesP := rfl

lemma inMain_l : inMain.percent_returns_late = seriesL := rfl

lemma score_main : riskScoreFull seriesP seriesL = some ((1251 : ℝ)/5000) := by
  rw [riskScoreFull_eval seriesP seriesL _ _ stdOpt_seriesP stdOpt_seriesL]
  norm_num

lemma score_sens1 : riskScoreFull seriesP seriesC = some ((3 : ℝ)/20) := by
  rw [riskScoreFull_eval seriesP seriesC _ _ stdOpt_seriesP stdOpt_seriesC]
  norm_num

lemma score_sens2 : riskScoreFull seriesP2 seriesC = some ((7503 : ℝ)/50000) := by
  rw [riskScoreFull_eval seriesP2 seriesC _ _ stdOpt_seriesP2 stdOpt_seriesC]
  norm_num

lemma round3_main : round3 ((1251 : ℝ)/5000) = 1/4 := by
  rw [round3, round_eq]
  norm_num

lemma round3_sens1 : round3 ((3 : ℝ)/20) = 3/20 := by
  rw [round3, round_eq]
  norm_num

lemma round3_sens2 : round3 ((7503 : ℝ)/50000) = 3/20 := by
  rw [round3, round_eq]
  norm_num

/-- The report the assessor produces on `inMain` when fitting succeeds. -/
noncomputable def reportMain : RiskReport :=
  { penalty_forecast_next_2_quarters := [0, 0]
    late_pct_forecast_next_2_quarters := [0, 0]
    risk_score := some ((1 : ℝ)/4)
    risk_flag := (1251 : ℝ)/5000 > 0.25 }

/-- The report the assessor produces on the spec's N = 2 case: a NaN score
(`none`) and a False flag, not an error. -/
def reportShort : RiskReport :=
  { penalty_forecast_next_2_quarters := [0, 0]
    late_pct_forecast_next_2_quarters := [0, 0]
    risk_score := none
    risk_flag := False }

noncomputable def reportSens1 : RiskReport :=
  { penalty_forecast_next_2_quarters := [0, 0]
    late_pct_forecast_next_2_quarters := [0, 0]
    risk_score := some ((3 : ℝ)/20)
    risk_flag := (3 : ℝ)/20 > 0.25 }

noncomputable def reportSens2 : RiskReport :=
  { penalty_forecast_next_2_quarters := [0, 0]
    late_pct_forecast_next_2_quarters := [0, 0]
    risk_score := some ((3 : ℝ)/20)
    risk_flag := (7503 : ℝ)/50000 > 0.25 }

lemma assess_main :
    assess_quarterly_risk parseAny fitConst inMain = some reportMain := by
  rw [assess_pos parseAny fitConst inMain mdl0 mdl0 rfl rfl rfl rfl rfl,
    inMain_p, inMain_l, score_main, Option.map_some', round3_main]
  rfl

lemma assess_sens1 :
    assess_quarterly_risk parseAny fitConst inSens1 = some reportSens1 := by
  rw [assess_pos parseAny fitConst inSens1 mdl0 mdl0 rfl rfl rfl rfl rfl,
    show inSens1.penalty_per_year = seriesP from rfl,
    show inSens1.percent_returns_late = seriesC from rfl,
    score_sens1, Option.map_some', round3_sens1]
  rfl

lemma assess_sens2 :
    assess_quarterly_risk parseAny fitConst inSens2 = some reportSens2 := by
  rw [assess_pos parseAny fitConst inSens2 mdl0 mdl0 rfl rfl rfl rfl rfl,
    show inSens2.penalty_per_year = seriesP2 from rfl,
    show inSens2.percent_returns_late = seriesC from rfl,
    score_sens2, Option.map_some', round3_sens2]
  rfl

lemma assess_short :
    assess_quarterly_risk parseAny fitConst inShort = some reportShort := by
  rw [assess_pos parseAny fitConst inShort mdl0 mdl0 rfl rfl rfl rfl rfl,
    show inShort.penalty_per_year = [100, 110] from rfl,
    riskScoreFull_none_left [100, 110] _ stdOpt_shortP]
  rfl

lemma assess_mismatch (fit : List ℚ → Option FittedModel) :
    assess_quarterly_risk parseAny fit inMismatch = none := by
  rw [assess_quarterly_risk,
    if_pos (show inMismatch.quarters.all parseAny = true from rfl),
    if_neg (by decide)]

lemma stdOpt_some_nonneg (xs : List ℚ) (a : ℝ) (h : stdOpt xs = some a) :
    0 ≤ a := by
  rw [stdOpt] at h
  split_ifs at h
  injection h with h2
  rw [← h2]
  exact Real.sqrt_nonneg _

/-! The claims. -/

/-- C1: for every input on which the assessment succeeds with a defined
(non-NaN) risk score, and whose percentage-change denominators are nonzero
(the domain on which the spec's ratio of consecutive difference to prior
value is defined), the returned risk_score equals the composite
0.6 * volatility(penalty_per_year) + 0.4 * volatility(percent_returns_late)
rounded to 3 decimals, where volatility is the sample standard deviation of
the period-over-period percentage changes. -/
theorem c1_risk_score_is_composite (parseOk : String → Bool)
    (fit : List ℚ → Option FittedModel) (d : QuarterlyRiskInput)
    (r : RiskReport) (s : ℝ)
    (hr : assess_quarterly_risk parseOk fit d = some r)
    (hs : r.risk_score = some s)
    (hp : noZeroPrior d.penalty_per_year)
    (hl : noZeroPrior d.percent_returns_late) :
    s = round3 (0.6 * spec_volatility d.penalty_per_year
      + 0.4 * spec_volatility d.percent_returns_late) := by
  obtain ⟨pm, lm, hfp, hfl, hrep⟩ := assess_inv parseOk fit d r hr
  subst hrep
  have hs2 : (riskScoreFull d.penalty_per_year d.percent_returns_late).map round3
      = some s := hs
  cases hfull : riskScoreFull d.penalty_per_year d.percent_returns_late with
  | none => rw [hfull] at hs2; cases hs2
  | some t =>
    rw [hfull, Option.map_some'] at hs2
    injection hs2 with hst
    obtain ⟨a, b, hpa, hlb, htab⟩ := riskScoreFull_some _ _ _ hfull
    rw [stdOpt_some_spec _ a hp hpa, stdOpt_some_spec _ b hl hlb] at htab
    rw [← hst, htab]

/-- Witness for C1 at the concrete input `inMain`: the returned score 1/4
equals the rounded composite of the two spec volatilities. -/
theorem c1_witness :
    (1 : ℝ)/4 = round3 (0.6 * spec_volatility seriesP
      + 0.4 * spec_volatility seriesL) :=
  c1_risk_score_is_composite parseAny fitConst inMain reportMain ((1 : ℝ)/4)
    assess_main rfl
    (by intro a ha; fin_cases ha <;> norm_num)
    (by intro a ha; fin_cases ha <;> norm_num)

/-- C2 counterexample: on `inMain` (a successful fit abstracted by
`fitConst`) the response has risk_flag true while the returned risk_score
equals exactly 0.250, which is not greater than 0.25 — so the returned flag
is not equivalent to (returned risk_score > 0.25). -/
theorem c2_counterexample :
    assess_quarterly_risk parseAny fitConst inMain = some reportMain ∧
    reportMain.risk_flag ∧
    reportMain.risk_score = some ((0.250 : ℝ)) ∧
    ¬ ((0.250 : ℝ) > 0.25) :=
  ⟨assess_main, by norm_num [reportMain], by norm_num [reportMain], by norm_num⟩

/-- C2 amended: risk_flag is equivalent to (full-precision composite score
> 0.25) — the flag is computed before rounding (risk_logic.py line 22), so
at a full-precision score of exactly 0.25 the flag is false, but the
returned rounded risk_score can equal 0.250 while the flag is true. -/
theorem c2_amended_flag_iff_full_score (parseOk : String → Bool)
    (fit : List ℚ → Option FittedModel) (d : QuarterlyRiskInput)
    (r : RiskReport) (s : ℝ)
    (hr : assess_quarterly_risk parseOk fit d = some r)
    (hs : riskScoreFull d.penalty_per_year d.percent_returns_late = some s) :
    (r.risk_flag ↔ s > 0.25) := by
  obtain ⟨pm, lm, hfp, hfl, hrep⟩ := assess_inv parseOk fit d r hr
  subst hrep
  show flagOf (riskScoreFull d.penalty_per_year d.percent_returns_late) ↔ s > 0.25
  rw [hs]
  exact Iff.rfl

/-- Witness for the amended C2 at the concrete input `inMain`. -/
theorem c2_amended_witness :
    reportMain.risk_flag ↔ (1251 : ℝ)/5000 > 0.25 :=
  c2_amended_flag_iff_full_score parseAny fitConst inMain reportMain _
    assess_main (by rw [inMain_p, inMain_l]; exact score_main)

/-- C3: on the spec's concrete N = 2 input (quarters 2023-Q1/Q2, penalties
100/110, late 2/2.1) the code raises neither a FittingError nor a
DegenerateVolatilityError — no such exception types exist anywhere in the
repository — and when the abstracted ARIMA fit succeeds it returns a
report whose risk_score is NaN (`none`, from the ddof = 1 standard
deviation of a single percentage change) and whose risk_flag is False. -/
theorem c3_short_input_returns_nan :
    assess_quarterly_risk parseAny fitConst inShort = some reportShort ∧
    reportShort.risk_score = none ∧ ¬ reportShort.risk_flag :=
  ⟨assess_short, rfl, fun h => h⟩

/-- C4: on four quarters against three penalties the assessor terminates
with an unhandled exception (`none`) whatever fitting routine is supplied —
the generic pandas ValueError of the DataFrame constructor — rather than
with a typed ValidationError, which the repository never defines; it does
not truncate and compute. -/
theorem c4_mismatched_lengths_crash (fit : List ℚ → Option FittedModel) :
    assess_quarterly_risk parseAny fit inMismatch = none :=
  assess_mismatch fit

/-- C5: whenever validation passes and both fits succeed on an input with
at least 4 quarters whose two volatilities are defined (non-degenerate),
the report carries exactly 2 forecast values per series and a finite
nonnegative risk score. -/
theorem c5_success_shape (parseOk : String → Bool)
    (fit : List ℚ → Option FittedModel) (d : QuarterlyRiskInput)
    (r : RiskReport) (a b : ℝ)
    (hn : 4 ≤ d.quarters.length)
    (hr : assess_quarterly_risk parseOk fit d = some r)
    (ha : stdOpt d.penalty_per_year = some a)
    (hb : stdOpt d.percent_returns_late = some b) :
    r.penalty_forecast_next_2_quarters.length = 2 ∧
    r.late_pct_forecast_next_2_quarters.length = 2 ∧
    r.risk_score = some (round3 (0.6 * a + 0.4 * b)) ∧
    0 ≤ round3 (0.6 * a + 0.4 * b) := by
  obtain ⟨pm, lm, hfp, hfl, hrep⟩ := assess_inv parseOk fit d r hr
  subst hrep
  refine ⟨pm.forecast_len 2, lm.forecast_len 2, ?_, ?_⟩
  · show (riskScoreFull d.penalty_per_year d.percent_returns_late).map round3
      = some (round3 (0.6 * a + 0.4 * b))
    rw [riskScoreFull_eval _ _ _ _ ha hb, Option.map_some']
  · have h1 : 0 ≤ a := stdOpt_some_nonneg _ _ ha
    have h2 : 0 ≤ b := stdOpt_some_nonneg _ _ hb
    exact round3_nonneg _ (by linarith)

/-- Witness for C5 at the concrete input `inMain`. -/
theorem c5_witness :
    reportMain.penalty_forecast_next_2_quarters.length = 2 ∧
    reportMain.late_pct_forecast_next_2_quarters.length = 2 ∧
    reportMain.risk_score =
      some (round3 (0.6 * ((1 : ℝ)/4) + 0.4 * ((501 : ℝ)/2000))) ∧
    0 ≤ round3 (0.6 * ((1 : ℝ)/4) + 0.4 * ((501 : ℝ)/2000)) :=
  c5_success_shape parseAny fitConst inMain reportMain ((1 : ℝ)/4)
    ((501 : ℝ)/2000) (by norm_num [inMain, qs4]) assess_main
    (by rw [inMain_p]; exact stdOpt_seriesP)
    (by rw [inMain_l]; exact stdOpt_seriesL)

/-- C6: the assessor is deterministic and stateless — its output is a
function of the input record's three fields alone (given the same
deterministic parser and fitting routine), so two calls on fieldwise
identical inputs return identical reports. -/
theorem c6_deterministic (parseOk : String → Bool)
    (fit : List ℚ → Option FittedModel) (d1 d2 : QuarterlyRiskInput)
    (hq : d1.quarters = d2.quarters)
    (hp : d1.penalty_per_year = d2.penalty_per_year)
    (hl : d1.percent_returns_late = d2.percent_returns_late) :
    assess_quarterly_risk parseOk fit d1 = assess_quarterly_risk parseOk fit d2 := by
  cases d1
  cases d2
  cases hq
  cases hp
  cases hl
  rfl

/-- Witness for C6: two runs on `inMain` coincide. -/
theorem c6_witness :
    assess_quarterly_risk parseAny fitConst inMain
      = assess_quarterly_risk parseAny fitConst inMain :=
  c6_deterministic parseAny fitConst inMain inMain rfl rfl rfl

/-- C7 counterexample: from `inSens1` to `inSens2` only the penalty series
changes and its volatility strictly increases (1/4 to 0.2501) while the
late series and its volatility (0) are unchanged, yet the returned
risk_score does not increase: both reports carry risk_score 0.150 — the
rounding of the returned score defeats strict monotonicity and the exact
0.6-per-unit sensitivity. -/
theorem c7_counterexample :
    inSens1.percent_returns_late = inSens2.percent_returns_late ∧
    stdOpt inSens1.penalty_per_year = some ((1 : ℝ)/4) ∧
    stdOpt inSens2.penalty_per_year = some ((2501 : ℝ)/10000) ∧
    ((1 : ℝ)/4) < (2501 : ℝ)/10000 ∧
    assess_quarterly_risk parseAny fitConst inSens1 = some reportSens1 ∧
    assess_quarterly_risk parseAny fitConst inSens2 = some reportSens2 ∧
    reportSens1.risk_score = reportSens2.risk_score :=
  ⟨rfl, stdOpt_seriesP, stdOpt_seriesP2, by norm_num, assess_sens1,
    assess_sens2, rfl⟩

/-- C7 amended: the strict increase and the exact 0.6 / 0.4 sensitivities
hold for the full-precision composite score before rounding; the returned
rounded risk_score increases only weakly. -/
theorem c7_amended_sensitivity (p1 p2 l q l1 l2 : List ℚ)
    (a1 a2 b c b1 b2 s1 s2 t1 t2 : ℝ)
    (ha1 : stdOpt p1 = some a1) (ha2 : stdOpt p2 = some a2)
    (hb : stdOpt l = some b) (hc : stdOpt q = some c)
    (hb1 : stdOpt l1 = some b1) (hb2 : stdOpt l2 = some b2)
    (hlt : a1 < a2) (hlt2 : b1 < b2)
    (hs1 : riskScoreFull p1 l = some s1)
    (hs2 : riskScoreFull p2 l = some s2)
    (ht1 : riskScoreFull q l1 = some t1)
    (ht2 : riskScoreFull q l2 = some t2) :
    s1 < s2 ∧ s2 - s1 = 0.6 * (a2 - a1) ∧ round3 s1 ≤ round3 s2 ∧
    t1 < t2 ∧ t2 - t1 = 0.4 * (b2 - b1) ∧ round3 t1 ≤ round3 t2 := by
  rw [riskScoreFull_eval p1 l a1 b ha1 hb] at hs1
  rw [riskScoreFull_eval p2 l a2 b ha2 hb] at hs2
  rw [riskScoreFull_eval q l1 c b1 hc hb1] at ht1
  rw [riskScoreFull_eval q l2 c b2 hc hb2] at ht2
  injection hs1 with e1
  injection hs2 with e2
  injection ht1 with e3
  injection ht2 with e4
  subst e1
  subst e2
  subst e3
  subst e4
  refine ⟨by linarith, by ring, round3_mono _ _ (by linarith),
    by linarith, by ring, round3_mono _ _ (by linarith)⟩

/-- Witness for the amended C7 with volatilities 1/4 < 0.2501 on the
penalty side (late fixed at 0) and 0 < 0.2505 on the late side (penalty
fixed at 1/4). -/
theorem c7_amended_witness :
    ((3 : ℝ)/20 < (7503 : ℝ)/50000) ∧
    ((7503 : ℝ)/50000 - (3 : ℝ)/20 = 0.6 * ((2501 : ℝ)/10000 - (1 : ℝ)/4)) ∧
    (round3 ((3 : ℝ)/20) ≤ round3 ((7503 : ℝ)/50000)) ∧
    ((3 : ℝ)/20 < (1251 : ℝ)/5000) ∧
    ((1251 : ℝ)/5000 - (3 : ℝ)/20 = 0.4 * ((501 : ℝ)/2000 - 0)) ∧
    (round3 ((3 : ℝ)/20) ≤ round3 ((1251 : ℝ)/5000)) :=
  c7_amended_sensitivity seriesP seriesP2 seriesC seriesP seriesC seriesL
    ((1 : ℝ)/4) ((2501 : ℝ)/10000) 0 ((1 : ℝ)/4) 0 ((501 : ℝ)/2000)
    ((3 : ℝ)/20) ((7503 : ℝ)/50000) ((3 : ℝ)/20) ((1251 : ℝ)/5000)
    stdOpt_seriesP stdOpt_seriesP2 stdOpt_seriesC stdOpt_seriesP
    stdOpt_seriesC stdOpt_seriesL (by norm_num) (by norm_num)
    score_sens1 score_sens2 score_sens1 score_main

/-- C8: pydantic schema validation accepts a payload whose penalty series
contains NaN — no ValidationError is produced before model fitting (the
repository defines none); the non-finite value flows on to the ARIMA fit,
where the statsmodels library raises its own untyped error. -/
theorem c8_schema_accepts_nan :
    validatePayload
      { quarters := qs2,
        penalty_per_year := [PyFloat.nan, PyFloat.fin 110],
        percent_returns_late := [PyFloat.fin 2, PyFloat.fin (21/10)] } =
    some
      { quarters := qs2,
        penalty_per_year := [PyFloat.nan, PyFloat.fin 110],
        percent_returns_late := [PyFloat.fin 2, PyFloat.fin (21/10)] } := rfl

/-- C9: the returned risk_flag is computed from the full-precision
composite score before rounding — whenever assessment succeeds with a
defined composite score s, risk_flag ↔ s > 0.25 — and on the concrete
input `inMain` the response has risk_flag true while the returned rounded
risk_score equals 0.250. -/
theorem c9_flag_before_rounding :
    (∀ (parseOk : String → Bool) (fit : List ℚ → Option FittedModel)
      (d : QuarterlyRiskInput) (r : RiskReport) (s : ℝ),
      assess_quarterly_risk parseOk fit d = some r →
      riskScoreFull d.penalty_per_year d.percent_returns_late = some s →
      (r.risk_flag ↔ s > 0.25)) ∧
    assess_quarterly_risk parseAny fitConst inMain = some reportMain ∧
    reportMain.risk_flag ∧
    reportMain.risk_score = some ((0.250 : ℝ)) := by
  refine ⟨?_, assess_main, by norm_num [reportMain], by norm_num [reportMain]⟩
  intro parseOk fit d r s hr hs
  obtain ⟨pm, lm, hfp, hfl, hrep⟩ := assess_inv parseOk fit d r hr
  subst hrep
  show flagOf (riskScoreFull d.penalty_per_year d.percent_returns_late) ↔ s > 0.25
  rw [hs]
  exact Iff.rfl

/-- C10: the call never mutates its input: in the state-explicit rendering
of a call, the input record handed back afterwards has the same quarters,
penalty_per_year and percent_returns_late as the record passed in, for
every parser, fitting routine and input, whether the call returns a report
or fails. -/
theorem c10_no_input_mutation (parseOk : String → Bool)
    (fit : List ℚ → Option FittedModel) (d : QuarterlyRiskInput) :
    (assess_call parseOk fit d).1.quarters = d.quarters ∧
    (assess_call parseOk fit d).1.penalty_per_year = d.penalty_per_year ∧
    (assess_call parseOk fit d).1.percent_returns_late
      = d.percent_returns_late :=
  ⟨rfl, rfl, rfl⟩

end QuarterlyRisk
